import Mathlib

/-!
Shallow embedding of the command-handler core of the Mattermost Nagios
plugin (`src/server/handlers.go`).

Conventions of the embedding:
* Go machine integers (`int`, `int64`; the plugin is built for 64-bit
  targets, so `int` is 64 bits wide) are modelled as `Int` with the
  64-bit range check made explicit where the Go standard library
  performs one (`strconv.Atoi` / `strconv.ParseInt`).
* The Mattermost key-value backend (`p.API.KVGet` / `KVSet` /
  `KVDelete`) is modelled as an association list of JSON-encoded values
  plus a `Backend` oracle saying which calls fail with an I/O error.
  `json.Marshal` of an `int` or a `string` never fails and is modelled
  as the corresponding `JVal` constructor; `json.Unmarshal` into an
  `int` fails on a `nil` byte slice (absent key) and on a non-integer
  value.
* The ambient process state a Go function can reach through the
  standard library (the wall clock `time.Now`, the local time zone used
  by `time.Time.String`, the locale, and the Nagios client) is made
  explicit as an `Env` record; a Go `time.Time` is its count of
  nanoseconds since the Unix epoch.
* Fallible operations return `Except`; effects of the subscription
  handlers (channel creation, goroutine spawn, channel send, store
  writes) are recorded as explicit effect traces.
-/

namespace NagiosSpec

/-- A JSON-encoded key-value payload: the plugin only ever stores
`json.Marshal` of an integer or of a string. -/
inductive JVal where
  | jint : Int → JVal
  | jstr : String → JVal
deriving DecidableEq, Repr

/-- The persistent key-value store, as an association list keyed by the
setting name (latest write first). -/
abbrev Store := List (String × JVal)

/-- `api.KVGet`: the stored bytes for a key, `none` when the key is
absent (Go returns a `nil` slice with a `nil` error). -/
def kvGet (st : Store) (k : String) : Option JVal :=
  (st.find? (fun q => q.1 == k)).map (fun q => q.2)

/-- The store after a successful `api.KVSet`. -/
def kvSetStore (st : Store) (k : String) (v : JVal) : Store :=
  (k, v) :: st.filter (fun q => q.1 != k)

/-- The store after a successful `api.KVDelete`. -/
def kvDeleteStore (st : Store) (k : String) : Store :=
  st.filter (fun q => q.1 != k)

/-- Which backend calls fail with an I/O error (`*model.AppError`),
per key.  A reliable backend maps everything to `false`. -/
structure Backend where
  kvSetFail : String → Bool
  kvGetFail : String → Bool
  kvDeleteFail : String → Bool

/-- `api.KVSet` with its failure mode. -/
def kvSet (bk : Backend) (st : Store) (k : String) (v : JVal) : Except Unit Store :=
  if bk.kvSetFail k then Except.error () else Except.ok (kvSetStore st k v)

/-- `api.KVDelete` with its failure mode. -/
def kvDelete (bk : Backend) (st : Store) (k : String) : Except Unit Store :=
  if bk.kvDeleteFail k then Except.error () else Except.ok (kvDeleteStore st k)

/-- `api.KVGet` with its failure mode. -/
def kvGetB (bk : Backend) (st : Store) (k : String) : Except Unit (Option JVal) :=
  if bk.kvGetFail k then Except.error () else Except.ok (kvGet st k)

/-- `json.Unmarshal` into a Go `int`/`int64`: fails on absent bytes and
on a stored value that is not an integer. -/
def unmarshalInt : Option JVal → Option Int
  | some (JVal.jint n) => some n
  | _ => none

-- The string constants of handlers.go.

def settingLogsLimitUnsuccessful : String := "Setting logs limit unsuccessful."

def logsLimitKey : String := "logs-limit"

def settingLogsStartTimeUnsuccessful : String := "Setting logs start time unsuccessful."

def logsStartTimeKey : String := "logs-start-time"

def gettingLogsUnsuccessful : String := "Getting logs unsuccessful"

def resultTypeTextSuccess : String := "Success"

def settingReportFrequencyUnsuccessful : String := "Setting report frequency unsuccessful."

def reportFrequencyKey : String := "report-frequency"

def settingReportChannelUnsuccessful : String := "Setting system monitoring report channel unsuccessful."

def reportChannelKey : String := "report-channel"

def settingChangesChannelUnsuccessful : String := "Setting configuration changes channel unsuccessful."

def changesChannelKey : String := "changes-channel"

/-- The numeric value of a decimal digit character. -/
def digitVal (c : Char) : Nat := c.toNat - 48

/-- Go `strconv.ParseInt(s, 10, 64)`; `strconv.Atoi` is
`ParseInt(s, 10, 0)` which on a 64-bit target is the same function.
Accepts an optional single sign followed by one or more decimal digits,
and fails (`ErrSyntax` / `ErrRange`, both non-nil errors) otherwise or
when the value does not fit in a signed 64-bit integer. -/
def goParseInt64 (s : String) : Option Int :=
  let cs := s.data
  let sd : Bool × List Char :=
    match cs with
    | [] => (false, [])
    | c :: rest =>
      if c = '-' then (true, rest)
      else if c = '+' then (false, rest)
      else (false, cs)
  let neg := sd.1
  let ds := sd.2
  if ds.isEmpty then none
  else if ds.all (fun c => c.isDigit) then
    let n : Nat := ds.foldl (fun a c => a * 10 + digitVal c) 0
    if neg then
      if n ≤ 2 ^ 63 then some (-(n : Int)) else none
    else
      if n ≤ 2 ^ 63 - 1 then some (n : Int) else none
  else none

/-- `getLogsLimit` of handlers.go: read and decode the logs-limit
setting. -/
def getLogsLimit (bk : Backend) (st : Store) : Except String Int :=
  match kvGetB bk st logsLimitKey with
  | Except.error _ => Except.error "api.KVGet"
  | Except.ok b =>
    match unmarshalInt b with
    | none => Except.error "json.Unmarshal"
    | some limit => Except.ok limit

/-- `Plugin.setLogsLimit` of handlers.go.  Returns the reply string and
the store after the call. -/
def setLogsLimit (bk : Backend) (st : Store) (parameters : List String) :
    String × Store :=
  match parameters with
  | [p] =>
    match goParseInt64 p with
    | none => (settingLogsLimitUnsuccessful, st)
    | some i =>
      if i ≤ 0 then ("Invalid argument - logs limit must be a positive integer.", st)
      else
        match kvSet bk st logsLimitKey (JVal.jint i) with
        | Except.error _ => (settingLogsLimitUnsuccessful, st)
        | Except.ok st2 => ("Limit set successfully.", st2)
  | _ => ("You must supply exactly one parameter (integer value).", st)

/-- `getLogsStartTime` of handlers.go: the stored number of seconds,
returned as a `time.Duration` (nanoseconds). -/
def getLogsStartTime (bk : Backend) (st : Store) : Except String Int :=
  match kvGetB bk st logsStartTimeKey with
  | Except.error _ => Except.error "api.KVGet"
  | Except.ok b =>
    match unmarshalInt b with
    | none => Except.error "json.Unmarshal"
    | some seconds => Except.ok (seconds * 1000000000)

/-- `Plugin.setLogsStartTime` of handlers.go. -/
def setLogsStartTime (bk : Backend) (st : Store) (parameters : List String) :
    String × Store :=
  match parameters with
  | [p] =>
    match goParseInt64 p with
    | none => (settingLogsStartTimeUnsuccessful, st)
    | some i =>
      if i ≤ 0 then ("Invalid argument - start time must be a positive integer.", st)
      else
        match kvSet bk st logsStartTimeKey (JVal.jint i) with
        | Except.error _ => (settingLogsStartTimeUnsuccessful, st)
        | Except.ok st2 => ("Start time set successfully.", st2)
  | _ => ("You must supply exactly one parameter (number of seconds).", st)

/-- `Plugin.setReportFrequency` of handlers.go. -/
def setReportFrequency (bk : Backend) (st : Store) (parameters : List String) :
    String × Store :=
  match parameters with
  | [p] =>
    match goParseInt64 p with
    | none => (settingReportFrequencyUnsuccessful, st)
    | some i =>
      if i ≤ 0 then ("Invalid argument - report frequency must be a positive integer.", st)
      else
        match kvSet bk st reportFrequencyKey (JVal.jint i) with
        | Except.error _ => (settingReportFrequencyUnsuccessful, st)
        | Except.ok st2 => ("Report frequency set successfully.", st2)
  | _ => ("You must supply exactly one parameter (number of minutes).", st)

-- The upstream record types of the go-nagios client library, restricted
-- to the fields handlers.go reads.

/-- The upstream result envelope (`nagios.Result`): only `TypeText` is
inspected. -/
structure ResultRef where
  typeText : String
deriving DecidableEq, Repr

/-- One entry of `nagios.AlertList` (`nagios.AlertListEntry`), with the
fields `formatAlertListEntry` reads. -/
structure AlertListEntry where
  timestamp : Int
  objectType : String
  hostName : String
  name : String
  description : String
  stateType : String
  state : String
  pluginOutput : String
deriving DecidableEq, Repr

/-- `nagios.AlertList.Data` restricted to the list itself. -/
structure AlertListData where
  alertList : List AlertListEntry
deriving DecidableEq, Repr

/-- `nagios.AlertList`. -/
structure AlertList where
  result : ResultRef
  data : AlertListData
deriving DecidableEq, Repr

/-- One entry of `nagios.NotificationList`
(`nagios.NotificationListEntry`), with the fields
`formatNotificationListEntry` reads. -/
structure NotificationListEntry where
  timestamp : Int
  objectType : String
  hostName : String
  name : String
  description : String
  contact : String
  notificationType : String
  method : String
  message : String
deriving DecidableEq, Repr

/-- `nagios.NotificationList.Data` restricted to the list itself. -/
structure NotificationListData where
  notificationList : List NotificationListEntry
deriving DecidableEq, Repr

/-- `nagios.NotificationList`. -/
structure NotificationList where
  result : ResultRef
  data : NotificationListData
deriving DecidableEq, Repr

/-- `nagios.AlertListRequest` flattened to the fields `Plugin.getLogs`
fills (`FormatOptions.Enumerate` plus the `GeneralAlertRequest`
window/filter fields); `nagios.NotificationListRequest` fills the same
fields, so one record models both request types. -/
structure LogRequest where
  enumerate : Bool
  count : Int
  hostName : String
  serviceDescription : String
  startTime : Int
  endTime : Int
deriving DecidableEq, Repr

/-- The ambient process state a handler can reach beside the store: the
wall clock (`time.Now`, as Unix nanoseconds), the rendering of a Unix
second count in the process's local time zone (what
`time.Time.String()` does for a time constructed by `time.Unix`), the
process locale, and the two query operations of the Nagios client
(`p.client.Query` at the two request types; `Except.error` is a
transport/protocol error). -/
structure Env where
  nowNs : Int
  tzRender : Int → String
  locale : String
  queryAlerts : LogRequest → Except Unit AlertList
  queryNotifications : LogRequest → Except Unit NotificationList

/-- A Go `time.Time`, reduced to its instant: nanoseconds since the
Unix epoch (the location only matters for rendering, which `Env` models
via `tzRender`). -/
structure GoTime where
  unixNs : Int
deriving DecidableEq, Repr

/-- Go `time.Unix(sec, nsec)`. -/
def timeUnix (sec nsec : Int) : GoTime := ⟨sec * 1000000000 + nsec⟩

/-- Go `time.Time.Unix()`: whole seconds since the epoch (floor
division of the normalized nanosecond count). -/
def timeUnixSec (t : GoTime) : Int := t.unixNs / 1000000000

/-- Go `time.Time.String()`: render the instant in the process's local
time zone. -/
def timeString (env : Env) (t : GoTime) : String := env.tzRender (timeUnixSec t)

/-- `formatNagiosTimestamp` of handlers.go:
`time.Unix(t/1e3, 0).String()`.  `t` is an `int64` and `1e3` an
integer-valued constant, so `t/1e3` is Go integer division, i.e.
truncation towards zero (`Int.tdiv`). -/
def formatNagiosTimestamp (env : Env) (t : Int) : String :=
  timeString env (timeUnix (Int.tdiv t 1000) 0)

/-- `formatHostName` of handlers.go. -/
def formatHostName (name alt : String) : String :=
  if name.length = 0 then alt else name

/-- `gettingLogsUnsuccessfulMessage` of handlers.go
(`fmt.Sprintf` with layout string-colon-space-string). -/
def gettingLogsUnsuccessfulMessage (message : String) : String :=
  gettingLogsUnsuccessful ++ ": " ++ message

/-- `unknownParameterMessage` of handlers.go. -/
def unknownParameterMessage (parameter : String) : String :=
  "Unknown parameter (" ++ parameter ++ ")."

/-- Modelled from the spec: `emoji` is defined in the repository outside
`src/` (another file of the server package).  The spec fixes only that
each alert line begins with a state indicator that is a function of the
alert state (section 4.2: "each line containing: a state indicator,
..."), not the concrete mapping, so the indicator is modelled as the
state itself. -/
def emoji (state : String) : String := state

/-- `formatAlertListEntry` of handlers.go: the `fmt.Sprintf` layout
written out as explicit concatenation. -/
def formatAlertListEntry (env : Env) (e : AlertListEntry) : String :=
  emoji e.state ++ " [" ++ formatNagiosTimestamp env e.timestamp ++ "] " ++
    e.objectType ++ ": " ++ formatHostName e.hostName e.name ++ " | " ++
    e.description ++ " | " ++ e.stateType ++ " | " ++ e.state ++ " | " ++
    e.pluginOutput

/-- `formatAlerts` of handlers.go; the builder loop that writes a
newline before every entry but the first is `String.intercalate`. -/
def formatAlerts (env : Env) (alerts : AlertList) : String :=
  if alerts.result.typeText ≠ resultTypeTextSuccess then
    gettingLogsUnsuccessfulMessage alerts.result.typeText
  else if alerts.data.alertList.length = 0 then "No alerts."
  else String.intercalate "\n" (alerts.data.alertList.map (formatAlertListEntry env))

/-- `formatNotificationListEntry` of handlers.go. -/
def formatNotificationListEntry (env : Env) (e : NotificationListEntry) : String :=
  "[" ++ formatNagiosTimestamp env e.timestamp ++ "] " ++ e.objectType ++ ": " ++
    formatHostName e.hostName e.name ++ " | " ++ e.description ++ " | " ++
    e.contact ++ " | " ++ e.notificationType ++ " | " ++ e.method ++ " | " ++
    e.message

/-- `formatNotifications` of handlers.go. -/
def formatNotifications (env : Env) (notifications : NotificationList) : String :=
  if notifications.result.typeText ≠ resultTypeTextSuccess then
    gettingLogsUnsuccessfulMessage notifications.result.typeText
  else if notifications.data.notificationList.length = 0 then "No notifications."
  else
    String.intercalate "\n"
      (notifications.data.notificationList.map (formatNotificationListEntry env))

/-- `getLogsSpecific` of handlers.go: parse the optional host/service
filter.  Result is `(hostName, serviceDescription, message, ok)`. -/
def getLogsSpecific (parameters : List String) : String × String × String × Bool :=
  match parameters with
  | [] => ("", "", "", true)
  | p0 :: rest =>
    if p0 = "host" then
      match rest with
      | [] => ("", "", "You must supply host name.", false)
      | h :: _ => (h, "", "", true)
    else if p0 = "service" then
      match rest with
      | [] => ("", "", "You must supply service description.", false)
      | sd :: _ => ("", sd, "", true)
    else ("", "", unknownParameterMessage p0, false)

/-- Observable events of one `Plugin.getLogs` run, in order: the store
read of the logs limit, the host/service filter validation, the store
read of the start time, the client query. -/
inductive Ev where
  | readLimit : Ev
  | filterParse : Ev
  | readStartTime : Ev
  | clientQuery : Ev
deriving DecidableEq, Repr

/-- `Plugin.getLogs` of handlers.go, returning the reply string and the
ordered trace of its observable events. -/
def getLogs (bk : Backend) (env : Env) (st : Store) (parameters : List String) :
    String × List Ev :=
  match parameters with
  | [] => ("You must supply at least one parameter (alerts|notifications).", [])
  | p0 :: rest =>
    match getLogsLimit bk st with
    | Except.error _ => (gettingLogsUnsuccessful, [Ev.readLimit])
    | Except.ok c =>
      let r := getLogsSpecific rest
      if r.2.2.2 = false then (r.2.2.1, [Ev.readLimit, Ev.filterParse])
      else
        match getLogsStartTime bk st with
        | Except.error _ =>
          (gettingLogsUnsuccessful, [Ev.readLimit, Ev.filterParse, Ev.readStartTime])
        | Except.ok d =>
          let now := env.nowNs
          let q : LogRequest :=
            { enumerate := true
              count := c
              hostName := r.1
              serviceDescription := r.2.1
              startTime := timeUnixSec ⟨now - d⟩
              endTime := timeUnixSec ⟨now⟩ }
          if p0 = "alerts" then
            match env.queryAlerts q with
            | Except.error _ =>
              (gettingLogsUnsuccessful,
                [Ev.readLimit, Ev.filterParse, Ev.readStartTime, Ev.clientQuery])
            | Except.ok alerts =>
              (formatAlerts env alerts,
                [Ev.readLimit, Ev.filterParse, Ev.readStartTime, Ev.clientQuery])
          else if p0 = "notifications" then
            match env.queryNotifications q with
            | Except.error _ =>
              (gettingLogsUnsuccessful,
                [Ev.readLimit, Ev.filterParse, Ev.readStartTime, Ev.clientQuery])
            | Except.ok notifications =>
              (formatNotifications env notifications,
                [Ev.readLimit, Ev.filterParse, Ev.readStartTime, Ev.clientQuery])
          else
            (unknownParameterMessage p0,
              [Ev.readLimit, Ev.filterParse, Ev.readStartTime])

-- The subscription manager (`Plugin.subscribe` / `Plugin.unsubscribe`).

/-- Effects the subscription handlers perform, in program order:
creation of a cancel channel (`make(chan bool, 1)`), spawn of the
background polling goroutine (`go p.addMonitoringReport`), a send on a
cancel channel, and the store write/delete attempts. -/
inductive Effect where
  | mkChan : Nat → Effect
  | spawnTask : Nat → Effect
  | sendStop : Nat → Effect
  | kvSetEff : String → Effect
  | kvDeleteEff : String → Effect
deriving DecidableEq, Repr

/-- Whether an effect is a send on a cancel channel. -/
def Effect.isSendStop : Effect → Bool
  | Effect.sendStop _ => true
  | _ => false

/-- The plugin's subscription-related state.  Channels are named by
allocation order: `nextChan` is the next fresh channel name,
`subscriptionStop` models the `p.subscriptionStop` field (`none` is the
`nil` zero value), and `running` holds the channel names whose
`addMonitoringReport` goroutine is live.  Modelled from the spec where
the goroutine body is outside `src/`: the task loops until its cancel
signal fires and "never terminates itself except via the cancel signal"
(section 4.3), so a task leaves `running` only through a send on its
own channel — no transition below removes one. -/
structure SubState where
  nextChan : Nat
  subscriptionStop : Option Nat
  running : List Nat
  store : Store
deriving DecidableEq, Repr

/-- `setReportChannel` of handlers.go (`json.Marshal` of a string never
fails, so only the `KVSet` branch can). -/
def setReportChannel (bk : Backend) (channelID : String) (st : Store) :
    String × Store :=
  match kvSet bk st reportChannelKey (JVal.jstr channelID) with
  | Except.error _ => (settingReportChannelUnsuccessful, st)
  | Except.ok st2 => ("Subscribed to system monitoring report successfully.", st2)

/-- `setChangesChannel` of handlers.go. -/
def setChangesChannel (bk : Backend) (channelID : String) (st : Store) :
    String × Store :=
  match kvSet bk st changesChannelKey (JVal.jstr channelID) with
  | Except.error _ => (settingChangesChannelUnsuccessful, st)
  | Except.ok st2 => ("Subscribed to configuration changes successfully.", st2)

/-- `Plugin.subscribe` of handlers.go.  In the "report" branch the code
makes a fresh buffered cancel channel, spawns the goroutine, overwrites
`p.subscriptionStop`, and only then calls `setReportChannel`; nothing
is ever sent on the previously stored channel.  Returns the reply, the
new state and the effect trace in program order. -/
def subscribe (bk : Backend) (channelID : String) (parameters : List String)
    (s : SubState) : String × SubState × List Effect :=
  match parameters with
  | [p] =>
    if p = "report" then
      let stop := s.nextChan
      let s1 : SubState :=
        { s with
          nextChan := s.nextChan + 1
          running := s.running ++ [stop]
          subscriptionStop := some stop }
      let r := setReportChannel bk channelID s1.store
      (r.1, { s1 with store := r.2 },
        [Effect.mkChan stop, Effect.spawnTask stop, Effect.kvSetEff reportChannelKey])
    else if p = "configuration-changes" then
      let r := setChangesChannel bk channelID s.store
      (r.1, { s with store := r.2 }, [Effect.kvSetEff changesChannelKey])
    else (unknownParameterMessage p, s, [])
  | _ =>
    ("You must supply exactly one parameter (report|configuration-changes).", s, [])

/-- Outcome of `Plugin.unsubscribe`.  Go's send on a `nil` channel
blocks forever, which `blockedOnNilSend` records; a send on an
allocated one-slot buffered channel completes (the buffer slot or the
live receiving task takes the value), and the call returns. -/
inductive UnsubOutcome where
  | blockedOnNilSend : UnsubOutcome
  | returns : String → SubState → List Effect → UnsubOutcome
deriving DecidableEq, Repr

/-- `Plugin.unsubscribe` of handlers.go.  The "report" branch performs
`p.subscriptionStop <- true` unconditionally — there is no presence
check on the field — and then deletes the report-channel key. -/
def unsubscribe (bk : Backend) (parameters : List String) (s : SubState) :
    UnsubOutcome :=
  match parameters with
  | [p] =>
    if p = "report" then
      match s.subscriptionStop with
      | none => UnsubOutcome.blockedOnNilSend
      | some c =>
        match kvDelete bk s.store reportChannelKey with
        | Except.error _ =>
          UnsubOutcome.returns "Unsubscribing unsuccessful." s
            [Effect.sendStop c, Effect.kvDeleteEff reportChannelKey]
        | Except.ok st2 =>
          UnsubOutcome.returns "Unsubscribed successfully." { s with store := st2 }
            [Effect.sendStop c, Effect.kvDeleteEff reportChannelKey]
    else if p = "configuration-changes" then
      match kvDelete bk s.store changesChannelKey with
      | Except.error _ =>
        UnsubOutcome.returns "Unsubscribing unsuccessful." s
          [Effect.kvDeleteEff changesChannelKey]
      | Except.ok st2 =>
        UnsubOutcome.returns "Unsubscribed successfully." { s with store := st2 }
          [Effect.kvDeleteEff changesChannelKey]
    else UnsubOutcome.returns (unknownParameterMessage p) s []
  | _ =>
    UnsubOutcome.returns
      "You must supply exactly one parameter (report|configuration-changes)." s []

-- Concrete instances used by witnesses.

/-- A backend on which every call succeeds. -/
def bkOk : Backend := ⟨fun _ => false, fun _ => false, fun _ => false⟩

/-- A backend on which every `KVSet` fails. -/
def bkSetFail : Backend := ⟨fun _ => true, fun _ => false, fun _ => false⟩

/-- A concrete environment. -/
def envA : Env :=
  ⟨0, fun sec => toString sec, "C",
    fun _ => Except.error (), fun _ => Except.error ()⟩

/-- A second environment: same time zone as `envA`, different clock,
locale and client behavior. -/
def envB : Env :=
  ⟨123456789, fun sec => toString sec, "POSIX",
    fun _ => Except.ok ⟨⟨"Success"⟩, ⟨[]⟩⟩, fun _ => Except.ok ⟨⟨"Success"⟩, ⟨[]⟩⟩⟩

/-- A subscription state with one active subscription on channel 1. -/
def sActive : SubState := ⟨2, some 1, [1], []⟩

/-- The zero-value subscription state: no subscribe ever ran, so the
`subscriptionStop` field still holds `nil`. -/
def sNil : SubState := ⟨0, none, [], []⟩

/-- The shared shape of the three typed setting writers
(`Plugin.setLogsLimit`, `Plugin.setLogsStartTime`,
`Plugin.setReportFrequency`): arity check, parse, positivity check,
encode, store.  Each writer below is proved equal to an instance of
this shape, so the atomicity argument is made once. -/
def genericSet (bk : Backend) (st : Store) (key arityMsg errMsg badMsg okMsg : String)
    (ps : List String) : String × Store :=
  match ps with
  | [p] =>
    match goParseInt64 p with
    | none => (errMsg, st)
    | some i =>
      if i ≤ 0 then (badMsg, st)
      else
        match kvSet bk st key (JVal.jint i) with
        | Except.error _ => (errMsg, st)
        | Except.ok st2 => (okMsg, st2)
  | _ => (arityMsg, st)

/-- An alert result whose upstream status is not the success code. -/
def aErr : AlertList := ⟨⟨"Err"⟩, ⟨[]⟩⟩

/-- A successful alert result with no records. -/
def aEmpty : AlertList := ⟨⟨"Success"⟩, ⟨[]⟩⟩

/-- A notification result whose upstream status is not the success code. -/
def ntErr : NotificationList := ⟨⟨"Err"⟩, ⟨[]⟩⟩

/-- A successful notification result with no records. -/
def ntEmpty : NotificationList := ⟨⟨"Success"⟩, ⟨[]⟩⟩

/-- A successful alert result with one record. -/
def aDemo : AlertList :=
  ⟨⟨"Success"⟩, ⟨[⟨1700000000000, "Host", "web-1", "", "ping", "HARD", "CRITICAL", "timeout"⟩]⟩⟩

-- Theorems.

/-- A write through `kvSetStore` is visible to a read of the same key. -/
lemma kvGet_kvSetStore_self (st : Store) (k : String) (v : JVal) :
    kvGet (kvSetStore st k v) k = some v := by
  simp [kvGet, kvSetStore]

/-- `Plugin.setLogsLimit` is the generic writer at its key and
messages. -/
lemma setLogsLimit_eq_generic (bk : Backend) (st : Store) (ps : List String) :
    setLogsLimit bk st ps =
      genericSet bk st logsLimitKey "You must supply exactly one parameter (integer value)."
        settingLogsLimitUnsuccessful
        "Invalid argument - logs limit must be a positive integer."
        "Limit set successfully." ps := rfl

/-- `Plugin.setLogsStartTime` is the generic writer at its key and
messages. -/
lemma setLogsStartTime_eq_generic (bk : Backend) (st : Store) (ps : List String) :
    setLogsStartTime bk st ps =
      genericSet bk st logsStartTimeKey "You must supply exactly one parameter (number of seconds)."
        settingLogsStartTimeUnsuccessful
        "Invalid argument - start time must be a positive integer."
        "Start time set successfully." ps := rfl

/-- `Plugin.setReportFrequency` is the generic writer at its key and
messages. -/
lemma setReportFrequency_eq_generic (bk : Backend) (st : Store) (ps : List String) :
    setReportFrequency bk st ps =
      genericSet bk st reportFrequencyKey "You must supply exactly one parameter (number of minutes)."
        settingReportFrequencyUnsuccessful
        "Invalid argument - report frequency must be a positive integer."
        "Report frequency set successfully." ps := rfl

/-- Whenever the generic writer replies with anything but its success
confirmation, it has not touched the store. -/
lemma genericSet_err_unchanged (bk : Backend) (st : Store)
    (key arityMsg errMsg badMsg okMsg : String) (ps : List String)
    (hm : (genericSet bk st key arityMsg errMsg badMsg okMsg ps).1 ≠ okMsg) :
    (genericSet bk st key arityMsg errMsg badMsg okMsg ps).2 = st := by
  rcases ps with _ | ⟨p, t⟩
  · rfl
  rcases t with _ | ⟨q, t2⟩
  · rcases hP : goParseInt64 p with _ | i
    · simp [genericSet, hP]
    · by_cases hi : i ≤ 0
      · simp [genericSet, hP, hi]
      · cases hB : bk.kvSetFail key
        · simp [genericSet, hP, hi, kvSet, hB] at hm
        · simp [genericSet, hP, hi, kvSet, hB]
  · rfl

/-- Whenever the generic writer replies with its success confirmation
(assumed distinct from its three failure messages, as it is at every
instance), the new store is exactly the old one with the validated
positive integer encoded under the writer's key. -/
lemma genericSet_ok_stored (bk : Backend) (st : Store)
    (key arityMsg errMsg badMsg okMsg : String) (ps : List String)
    (hne1 : okMsg ≠ arityMsg) (hne2 : okMsg ≠ errMsg) (hne3 : okMsg ≠ badMsg)
    (hm : (genericSet bk st key arityMsg errMsg badMsg okMsg ps).1 = okMsg) :
    ∃ i, 0 < i ∧
      (genericSet bk st key arityMsg errMsg badMsg okMsg ps).2 =
        kvSetStore st key (JVal.jint i) := by
  rcases ps with _ | ⟨p, t⟩
  · exact absurd hm.symm hne1
  rcases t with _ | ⟨q, t2⟩
  · rcases hP : goParseInt64 p with _ | i
    · rw [genericSet] at hm
      simp [hP] at hm
      exact absurd hm.symm hne2
    · by_cases hi : i ≤ 0
      · rw [genericSet] at hm
        simp [hP, hi] at hm
        exact absurd hm.symm hne3
      · cases hB : bk.kvSetFail key
        · refine ⟨i, lt_of_not_le hi, ?_⟩
          simp [genericSet, hP, hi, kvSet, hB]
        · rw [genericSet] at hm
          simp [hP, hi, kvSet, hB] at hm
          exact absurd hm.symm hne2
  · exact absurd hm.symm hne1

/-- The alert entry renderer depends on the environment only through
the time-zone renderer. -/
lemma formatAlertListEntry_tz (e1 e2 : Env) (htz : e1.tzRender = e2.tzRender) :
    formatAlertListEntry e1 = formatAlertListEntry e2 := by
  funext e
  simp [formatAlertListEntry, formatNagiosTimestamp, timeString, htz]

/-- The notification entry renderer depends on the environment only
through the time-zone renderer. -/
lemma formatNotificationListEntry_tz (e1 e2 : Env) (htz : e1.tzRender = e2.tzRender) :
    formatNotificationListEntry e1 = formatNotificationListEntry e2 := by
  funext e
  simp [formatNotificationListEntry, formatNagiosTimestamp, timeString, htz]

/-- Claim C1: when a subscription is already active
(`subscriptionStop` holds a channel whose polling task is live),
`subscribe "report"` assigns a freshly created cancel channel to the
subscription-stop field, performs no send on any cancel channel during
the transition — in particular not on the previously held one — and so
leaves the prior polling task running. -/
theorem claim1_replace_no_cancel (bk : Backend) (cid : String)
    (s : SubState) (old : Nat)
    (hstop : s.subscriptionStop = some old)
    (hrun : old ∈ s.running)
    (hfresh : old ≠ s.nextChan) :
    (subscribe bk cid ["report"] s).2.1.subscriptionStop = some s.nextChan
    ∧ (subscribe bk cid ["report"] s).2.1.subscriptionStop ≠ s.subscriptionStop
    ∧ ((subscribe bk cid ["report"] s).2.2).all (fun e => !e.isSendStop) = true
    ∧ old ∈ (subscribe bk cid ["report"] s).2.1.running := by
  refine ⟨?_, ?_, ?_, ?_⟩
  · simp [subscribe]
  · rw [hstop]
    simp [subscribe, Ne.symm hfresh]
  · simp [subscribe, Effect.isSendStop]
  · simp [subscribe]
    exact Or.inl hrun

/-- Claim C1, witness: in the state with channel 1 active, subscribing
again installs fresh channel 2, sends nothing, and task 1 stays in the
running set. -/
theorem claim1_wit :
    (subscribe bkOk "town-square" ["report"] sActive).2.1.subscriptionStop =
      some sActive.nextChan
    ∧ (subscribe bkOk "town-square" ["report"] sActive).2.1.subscriptionStop ≠
      sActive.subscriptionStop
    ∧ ((subscribe bkOk "town-square" ["report"] sActive).2.2).all
        (fun e => !e.isSendStop) = true
    ∧ 1 ∈ (subscribe bkOk "town-square" ["report"] sActive).2.1.running :=
  claim1_replace_no_cancel bkOk "town-square" sActive 1 rfl (by decide) (by decide)

/-- Claim C2, evaluated at the failing input: `unsubscribe "report"`
with no subscription ever created (`subscriptionStop` is the `nil`
zero value) performs an unguarded send on a `nil` channel, which
blocks forever — the code has no presence check, contradicting the
claim that such a send does not block. -/
theorem claim2_unsub_nil_blocks :
    unsubscribe bkOk ["report"] sNil = UnsubOutcome.blockedOnNilSend := rfl

/-- Claim C3 (amended): for every parameter that parses as a positive
signed 64-bit integer n, `set-logs-limit` stores the encoded n and a
subsequent read of the logs-limit setting yields n (on a reliable
backend); a non-numeric or out-of-64-bit-range parameter leaves the
store unchanged and returns the fixed unsuccessful string, and one that
parses to n ≤ 0 leaves the store unchanged and returns the fixed
invalid-argument string. -/
theorem claim3_roundtrip (bk : Backend) (st : Store) (p : String) (n : Int)
    (hset : bk.kvSetFail logsLimitKey = false)
    (hget : bk.kvGetFail logsLimitKey = false) :
    (goParseInt64 p = some n → 0 < n →
      setLogsLimit bk st [p] =
        ("Limit set successfully.", kvSetStore st logsLimitKey (JVal.jint n))
      ∧ getLogsLimit bk (setLogsLimit bk st [p]).2 = Except.ok n)
    ∧ (goParseInt64 p = none →
      setLogsLimit bk st [p] = (settingLogsLimitUnsuccessful, st))
    ∧ (goParseInt64 p = some n → n ≤ 0 →
      setLogsLimit bk st [p] =
        ("Invalid argument - logs limit must be a positive integer.", st)) := by
  refine ⟨?_, ?_, ?_⟩
  · intro hp hpos
    have h1 : setLogsLimit bk st [p] =
        ("Limit set successfully.", kvSetStore st logsLimitKey (JVal.jint n)) := by
      rw [setLogsLimit]
      simp [hp, kvSet, hset, not_le.mpr hpos]
    refine ⟨h1, ?_⟩
    rw [h1]
    simp [getLogsLimit, kvGetB, hget, kvGet_kvSetStore_self, unmarshalInt]
  · intro hp
    rw [setLogsLimit]
    simp [hp]
  · intro hp hle
    rw [setLogsLimit]
    simp [hp, hle]

/-- Claim C3, witness: `set-logs-limit 7` then reading the setting
yields 7. -/
theorem claim3_wit : getLogsLimit bkOk (setLogsLimit bkOk [] ["7"]).2 = Except.ok 7 :=
  ((claim3_roundtrip bkOk [] "7" 7 rfl rfl).1 (by decide) (by decide)).2

/-- Claim C3, counterexample: the positive integer 2^63 =
9223372036854775808 does not fit a signed 64-bit integer, so
`strconv.Atoi` fails and `set-logs-limit 9223372036854775808` returns
the unsuccessful string with the store untouched — reading the setting
afterwards yields a decode error, not 2^63, refuting the claim's
universal quantification over all positive integers. -/
theorem claim3_cex :
    setLogsLimit bkOk [] ["9223372036854775808"] = (settingLogsLimitUnsuccessful, [])
    ∧ getLogsLimit bkOk (setLogsLimit bkOk [] ["9223372036854775808"]).2 =
        Except.error "json.Unmarshal" := ⟨rfl, rfl⟩

/-- Claim C4: on any result whose upstream status text is not the
success code, `format` returns exactly the string "Getting logs
unsuccessful: " followed by the status text, regardless of record
contents; on a success status with an empty record list it returns
exactly "No alerts." for alerts and "No notifications." for
notifications. -/
theorem claim4_format (env : Env) (a : AlertList) (nt : NotificationList) :
    (a.result.typeText ≠ resultTypeTextSuccess →
      formatAlerts env a = "Getting logs unsuccessful: " ++ a.result.typeText)
    ∧ (a.result.typeText = resultTypeTextSuccess → a.data.alertList = [] →
      formatAlerts env a = "No alerts.")
    ∧ (nt.result.typeText ≠ resultTypeTextSuccess →
      formatNotifications env nt = "Getting logs unsuccessful: " ++ nt.result.typeText)
    ∧ (nt.result.typeText = resultTypeTextSuccess → nt.data.notificationList = [] →
      formatNotifications env nt = "No notifications.") := by
  refine ⟨?_, ?_, ?_, ?_⟩
  · intro hx
    rw [formatAlerts, if_pos hx]
    rfl
  · intro hx he
    rw [formatAlerts, if_neg (by simp [hx]), if_pos (by simp [he])]
  · intro hx
    rw [formatNotifications, if_pos hx]
    rfl
  · intro hx he
    rw [formatNotifications, if_neg (by simp [hx]), if_pos (by simp [he])]

/-- Claim C4, witness: the four cases at concrete results. -/
theorem claim4_wit :
    formatAlerts envA aErr = "Getting logs unsuccessful: " ++ aErr.result.typeText
    ∧ formatAlerts envA aEmpty = "No alerts."
    ∧ formatNotifications envA ntErr = "Getting logs unsuccessful: " ++ ntErr.result.typeText
    ∧ formatNotifications envA ntEmpty = "No notifications." :=
  ⟨(claim4_format envA aErr ntErr).1 (by decide),
    (claim4_format envA aEmpty ntErr).2.1 (by decide) rfl,
    (claim4_format envA aErr ntErr).2.2.1 (by decide),
    (claim4_format envA aErr ntEmpty).2.2.2 (by decide) rfl⟩

/-- Claim C5: `getLogsSpecific` returns the exact message "You must
supply host name." on ["host"] alone, "You must supply service
description." on ["service"] alone, "Unknown parameter (bogus)." on
["bogus"]; it succeeds with no filter on zero parameters, sets exactly
the host filter on ["host", h] and exactly the service filter on
["service", s]; and on every input at most one of the two filters is
set. -/
theorem claim5_filters (h sd : String) (ps : List String) :
    getLogsSpecific ["host"] = ("", "", "You must supply host name.", false)
    ∧ getLogsSpecific ["service"] = ("", "", "You must supply service description.", false)
    ∧ getLogsSpecific ["bogus"] = ("", "", "Unknown parameter (bogus).", false)
    ∧ getLogsSpecific [] = ("", "", "", true)
    ∧ getLogsSpecific ("host" :: h :: ps) = (h, "", "", true)
    ∧ getLogsSpecific ("service" :: sd :: ps) = ("", sd, "", true)
    ∧ ((getLogsSpecific ps).1 = "" ∨ (getLogsSpecific ps).2.1 = "") := by
  refine ⟨rfl, rfl, rfl, rfl, rfl, rfl, ?_⟩
  unfold getLogsSpecific
  split
  · exact Or.inl rfl
  split
  · split
    · exact Or.inl rfl
    · exact Or.inr rfl
  split
  · split
    · exact Or.inl rfl
    · exact Or.inl rfl
  · exact Or.inl rfl

/-- Claim C6: each typed setting write (`set-logs-limit`,
`set-logs-start-time`, `set-report-frequency`) is atomic — on any
reply other than its success confirmation the store is unchanged, and
on the success confirmation the new store is exactly the old one with
a validated positive integer encoded under the setting's key; no
partially written or unvalidated value is ever stored. -/
theorem claim6_atomic (bk : Backend) (st : Store) (ps : List String) :
    ((setLogsLimit bk st ps).1 ≠ "Limit set successfully." →
      (setLogsLimit bk st ps).2 = st)
    ∧ ((setLogsLimit bk st ps).1 = "Limit set successfully." →
      ∃ i, 0 < i ∧ (setLogsLimit bk st ps).2 = kvSetStore st logsLimitKey (JVal.jint i))
    ∧ ((setLogsStartTime bk st ps).1 ≠ "Start time set successfully." →
      (setLogsStartTime bk st ps).2 = st)
    ∧ ((setLogsStartTime bk st ps).1 = "Start time set successfully." →
      ∃ i, 0 < i ∧ (setLogsStartTime bk st ps).2 = kvSetStore st logsStartTimeKey (JVal.jint i))
    ∧ ((setReportFrequency bk st ps).1 ≠ "Report frequency set successfully." →
      (setReportFrequency bk st ps).2 = st)
    ∧ ((setReportFrequency bk st ps).1 = "Report frequency set successfully." →
      ∃ i, 0 < i ∧ (setReportFrequency bk st ps).2 = kvSetStore st reportFrequencyKey (JVal.jint i)) := by
  rw [setLogsLimit_eq_generic, setLogsStartTime_eq_generic, setReportFrequency_eq_generic]
  refine ⟨genericSet_err_unchanged bk st _ _ _ _ _ ps,
    genericSet_ok_stored bk st _ _ _ _ _ ps (by decide) (by decide) (by decide),
    genericSet_err_unchanged bk st _ _ _ _ _ ps,
    genericSet_ok_stored bk st _ _ _ _ _ ps (by decide) (by decide) (by decide),
    genericSet_err_unchanged bk st _ _ _ _ _ ps,
    genericSet_ok_stored bk st _ _ _ _ _ ps (by decide) (by decide) (by decide)⟩

/-- Claim C6, witness: a non-numeric `set-logs-limit` parameter leaves
the empty store empty. -/
theorem claim6_wit :
    (setLogsLimit bkOk [] ["abc"]).2 = ([] : Store) :=
  (claim6_atomic bkOk [] ["abc"]).1 (by decide)

/-- Claim C7: formatting is a pure function of the query result and
the time zone — two environments that agree on the time-zone renderer
(but may differ in wall clock, locale and client behavior) produce
byte-identical output on the same input, so two applications to
identical input are byte-identical. -/
theorem claim7_pure (e1 e2 : Env) (a : AlertList) (nt : NotificationList)
    (htz : e1.tzRender = e2.tzRender) :
    formatAlerts e1 a = formatAlerts e2 a
    ∧ formatNotifications e1 nt = formatNotifications e2 nt := by
  constructor
  · simp [formatAlerts, formatAlertListEntry_tz e1 e2 htz]
  · simp [formatNotifications, formatNotificationListEntry_tz e1 e2 htz]

/-- Claim C7, witness: two environments with different clocks, locales
and clients but one time zone render a one-record result identically. -/
theorem claim7_wit :
    formatAlerts envA aDemo = formatAlerts envB aDemo :=
  (claim7_pure envA envB aDemo ntEmpty rfl).1

/-- Claim C8: `formatNagiosTimestamp` renders the instant of Unix time
t/1000 seconds (Go integer division of the millisecond timestamp t by
1000); in particular the upstream timestamp 1700000000000 ms renders as
the standard textual rendering of Unix time 1700000000 s. -/
theorem claim8_timestamp (env : Env) (t : Int) :
    formatNagiosTimestamp env t = env.tzRender (Int.tdiv t 1000)
    ∧ formatNagiosTimestamp env 1700000000000 = timeString env (timeUnix 1700000000 0) := by
  constructor
  · rw [formatNagiosTimestamp, timeString, timeUnix, timeUnixSec]
    norm_num
  · have hdiv : Int.tdiv 1700000000000 1000 = 1700000000 := by decide
    rw [formatNagiosTimestamp, hdiv]

/-- Claim C9: in every `get-log` run with at least one parameter, the
first observable event is the store read of the logs limit, before the
host/service filter parameters are validated; when that read or its
decoding fails, the run stops there with the generic "Getting logs
unsuccessful" reply and the filter validation never happens, so no
filter user-error message is produced. -/
theorem claim9_limit_first (bk : Backend) (env : Env) (st : Store)
    (p0 : String) (rest : List String) :
    ((getLogs bk env st (p0 :: rest)).2.head? = some Ev.readLimit)
    ∧ (∀ e, getLogsLimit bk st = Except.error e →
      (getLogs bk env st (p0 :: rest)).1 = gettingLogsUnsuccessful
      ∧ (getLogs bk env st (p0 :: rest)).2 = [Ev.readLimit]) := by
  constructor
  · rcases hL : getLogsLimit bk st with e | c
    · simp [getLogs, hL]
    · rw [getLogs]
      simp only [hL]
      split
      · rfl
      split
      · rfl
      split
      · split <;> rfl
      split
      · split <;> rfl
      · rfl
  · intro e hE
    simp [getLogs, hE]

/-- Claim C9, witness: on an empty store (logs limit undecodable) and
a malformed filter (["host"] with no name), `get-log alerts host`
returns the generic failure, not "You must supply host name.", and the
trace holds only the limit read. -/
theorem claim9_wit :
    (getLogs bkOk envA [] ["alerts", "host"]).1 = gettingLogsUnsuccessful
    ∧ (getLogs bkOk envA [] ["alerts", "host"]).2 = [Ev.readLimit] :=
  (claim9_limit_first bkOk envA [] "alerts" ["host"]).2 "json.Unmarshal" rfl

/-- Claim C10: `subscribe "report"` creates the cancel channel, spawns
the polling task and replaces the subscription-stop handle before it
attempts to persist the report channel; when persistence fails the
reply is the unsuccessful string, yet the fresh handle is installed,
the new task is running and the store is unchanged — the failure
response does not leave the subscription state unchanged. -/
theorem claim10_task_started_despite_persist_failure (bk : Backend) (cid : String)
    (s : SubState) (hfail : bk.kvSetFail reportChannelKey = true) :
    (subscribe bk cid ["report"] s).1 = settingReportChannelUnsuccessful
    ∧ (subscribe bk cid ["report"] s).2.1.subscriptionStop = some s.nextChan
    ∧ s.nextChan ∈ (subscribe bk cid ["report"] s).2.1.running
    ∧ (subscribe bk cid ["report"] s).2.1.store = s.store
    ∧ (subscribe bk cid ["report"] s).2.2 =
        [Effect.mkChan s.nextChan, Effect.spawnTask s.nextChan,
          Effect.kvSetEff reportChannelKey] := by
  refine ⟨?_, ?_, ?_, ?_, ?_⟩ <;>
    simp [subscribe, setReportChannel, kvSet, hfail]

/-- Claim C10, witness: with a failing `KVSet`, subscribing from the
zero state still installs channel 0 and spawns its task. -/
theorem claim10_wit :
    (subscribe bkSetFail "town-square" ["report"] sNil).1 = settingReportChannelUnsuccessful
    ∧ (subscribe bkSetFail "town-square" ["report"] sNil).2.1.subscriptionStop =
      some sNil.nextChan
    ∧ sNil.nextChan ∈ (subscribe bkSetFail "town-square" ["report"] sNil).2.1.running
    ∧ (subscribe bkSetFail "town-square" ["report"] sNil).2.1.store = sNil.store
    ∧ (subscribe bkSetFail "town-square" ["report"] sNil).2.2 =
        [Effect.mkChan sNil.nextChan, Effect.spawnTask sNil.nextChan,
          Effect.kvSetEff reportChannelKey] :=
  claim10_task_started_despite_persist_failure bkSetFail "town-square" sNil rfl

end NagiosSpec
